import Mathlib

/-!
Verification of the Pricing Resolution & Fallback Engine of the
aws-pricing-calculator repository.

The Python source is shallowly embedded: dictionaries become association
lists over `String` keys, floating-point prices become exact rationals
(`ℚ`), raised exceptions become `Except` errors, and the process-wide
connectivity globals of `src/utils/offline_mode.py` become an explicit
`ConnState` record threaded through the operations.
-/

/-- Decidable equality for `Except`, used to evaluate embedded fallible
operations on concrete inputs. -/
instance {ε α : Type} [DecidableEq ε] [DecidableEq α] :
    DecidableEq (Except ε α) := fun x y =>
  match x, y with
  | Except.ok a, Except.ok b =>
    if h : a = b then Decidable.isTrue (congrArg Except.ok h)
    else Decidable.isFalse (fun hc => h (Except.ok.inj hc))
  | Except.error a, Except.error b =>
    if h : a = b then Decidable.isTrue (congrArg Except.error h)
    else Decidable.isFalse (fun hc => h (Except.error.inj hc))
  | Except.ok _, Except.error _ => Decidable.isFalse (fun hc => Except.noConfusion hc)
  | Except.error _, Except.ok _ => Decidable.isFalse (fun hc => Except.noConfusion hc)

/-- ASCII-character-wise lowercase conversion, mirroring Python's
`str.lower()` on the ASCII operating-system names appearing in the
source. -/
def strLower (s : String) : String :=
  String.mk (s.data.map Char.toLower)

/-- Lookup in an association list, mirroring Python's `dict.get(key)`
(returns `none` when the key is absent). -/
def dictGet {α : Type} (d : List (String × α)) (k : String) : Option α :=
  (d.find? (fun p => p.1 == k)).map Prod.snd

/-- Lookup with a default, mirroring Python's `dict.get(key, default)`. -/
def dictGetD {α : Type} (d : List (String × α)) (k : String) (v : α) : α :=
  (dictGet d k).getD v

/-!
## Connectivity Monitor — src/utils/offline_mode.py

The module-level globals `_aws_online` (None / True / False) and
`_force_mode` (None / True / False) are embedded as an explicit state
record.  The network probe performed by `check_aws_connection` (an HTTP
GET with retries) is abstracted by a boolean parameter `netOk` meaning
"some attempt received a 200 response".
-/

/-- State of the connectivity monitor: the cached flag `_aws_online` and
the override `_force_mode` of src/utils/offline_mode.py. -/
structure ConnState where
  aws_online : Option Bool
  force_mode : Option Bool
deriving DecidableEq, Repr

/-- Embedding of `check_aws_connection`: if a force mode is set it is
copied into the cached flag and returned; otherwise the probe outcome
`netOk` is cached and returned.  Returns the result together with the
updated state. -/
def check_aws_connection (netOk : Bool) (s : ConnState) : Bool × ConnState :=
  match s.force_mode with
  | some b => (b, { s with aws_online := some b })
  | none => (netOk, { s with aws_online := some netOk })

/-- Embedding of `is_aws_online`: the forced value wins; otherwise the
cached flag is returned, probing first (via `check_aws_connection`) when
the flag is still unverified (`none`). -/
def is_aws_online (netOk : Bool) (s : ConnState) : Bool × ConnState :=
  match s.force_mode with
  | some b => (b, s)
  | none =>
    match s.aws_online with
    | none => check_aws_connection netOk s
    | some b => (b, s)

/-- Embedding of `force_online_mode`: sets both `_force_mode` and
`_aws_online` to `True`. -/
def force_online_mode (_ : ConnState) : ConnState :=
  { aws_online := some true, force_mode := some true }

/-- Embedding of `force_offline_mode`: sets both `_force_mode` and
`_aws_online` to `False`. -/
def force_offline_mode (_ : ConnState) : ConnState :=
  { aws_online := some false, force_mode := some false }

/-- Embedding of `reset_connection_state`: clears both globals back to
`None`. -/
def reset_connection_state (_ : ConnState) : ConnState :=
  { aws_online := none, force_mode := none }

/-- The observable operations on the connectivity monitor, used to state
temporal properties about sequences of calls.  `probe` is a call to
`check_aws_connection`, `query` a call to `is_aws_online`; each carries
the real network reachability at the time of the call. -/
inductive ConnOp where
  | probe : Bool → ConnOp
  | query : Bool → ConnOp
  | forceOn : ConnOp
  | forceOff : ConnOp
  | reset : ConnOp
deriving DecidableEq, Repr

/-- State transition of one connectivity-monitor call. -/
def applyConnOp (s : ConnState) : ConnOp → ConnState
  | ConnOp.probe netOk => (check_aws_connection netOk s).2
  | ConnOp.query netOk => (is_aws_online netOk s).2
  | ConnOp.forceOn => force_online_mode s
  | ConnOp.forceOff => force_offline_mode s
  | ConnOp.reset => reset_connection_state s

/-!
## Fallback Dispatcher — `fallback_to_static` in src/utils/offline_mode.py

The live and static operations are embedded as thunks returning
`Except String α`: an `Except.error` of the live thunk models an
exception raised by the online function (caught by the dispatcher), an
`Except.error` of the static thunk models an exception raised by the
offline function (propagated unmodified).  The run record also counts
how often each thunk was invoked, which is exactly what the control flow
of the source determines.
-/

/-- Result of one `fallback_to_static` invocation: the returned value (or
propagated exception), the connectivity state after the embedded
`is_aws_online` call, and the number of calls made to each operation. -/
structure FallbackRun (α : Type) where
  result : Except String α
  state : ConnState
  onlineCalls : Nat
  offlineCalls : Nat
deriving Repr

/-- Embedding of `fallback_to_static(online_func, offline_func, *args)`:
consult `is_aws_online`; when online, call the online function and
return its value, falling back to the offline function only when the
online call raises; when offline, call the offline function directly. -/
def fallback_to_static {α : Type} (netOk : Bool) (s : ConnState)
    (online_func offline_func : Unit → Except String α) : FallbackRun α :=
  let pr := is_aws_online netOk s
  if pr.1 then
    match online_func () with
    | Except.ok v => ⟨Except.ok v, pr.2, 1, 0⟩
    | Except.error _ => ⟨offline_func (), pr.2, 1, 1⟩
  else ⟨offline_func (), pr.2, 0, 1⟩

/-!
## Per-Service Cost Models — src/aws_services.py

A parameter dict is embedded as a record of optional fields, one per key
read by any cost model (`params.get(key, default)` becomes
`Option.getD`).  Numeric parameter values are embedded as rationals.
The heterogeneous result dicts are embedded as one `Quote` record whose
optional fields correspond to the keys that only some models emit.
-/

/-- Embedding of the parameter dictionary passed to the cost models of
src/aws_services.py; `none` means the key is absent from the dict. -/
structure Params where
  instance_type : Option String := none
  region : Option String := none
  os_type : Option String := none
  quantity : Option ℚ := none
  hours_per_day : Option ℚ := none
  days_per_month : Option ℚ := none
  storage_gb : Option ℚ := none
  storage_class : Option String := none
  requests : Option ℚ := none
  memory : Option ℚ := none
  avg_duration : Option ℚ := none
  vcpu : Option ℚ := none
  memory_gb : Option ℚ := none
  hours_per_month : Option ℚ := none
  ingestion_gb : Option ℚ := none
  metrics : Option ℚ := none
  alarms : Option ℚ := none
  dashboards : Option ℚ := none
  node_type : Option String := none
  nodes : Option ℚ := none
  hours : Option ℚ := none
  data_transfer_gb : Option ℚ := none
  instances : Option ℚ := none
  hosted_zones : Option ℚ := none
  queries_millions : Option ℚ := none
deriving DecidableEq, Repr

/-- Embedding of the result dict of a cost model.  `unit_price`,
`quantity` and `total_price` are present in every model's dict; the
optional fields are the keys emitted only by particular models. -/
structure Quote where
  unit_price : ℚ
  quantity : ℚ
  monthly_hours : Option ℚ := none
  requests_cost : Option ℚ := none
  vcpu_cost : Option ℚ := none
  memory_cost : Option ℚ := none
  data_transfer_cost : Option ℚ := none
  storage_cost : Option ℚ := none
  query_cost : Option ℚ := none
  total_price : ℚ
deriving DecidableEq, Repr

/-- The itemized sub-costs declared in a quote: the optional cost fields
that are present (the `monthly_hours` field is a usage figure, not a
cost). -/
def Quote.subCosts (q : Quote) : List ℚ :=
  [q.requests_cost, q.vcpu_cost, q.memory_cost,
   q.data_transfer_cost, q.storage_cost, q.query_cost].filterMap id

/-- Result of `estimate_price`: either a cost model's quote or the
structured error dict `{"error": ...}` returned for an unsupported
service. -/
inductive PriceResult where
  | quote : Quote → PriceResult
  | error : String → PriceResult
deriving DecidableEq, Repr

/-- `EC2_PRICES` of src/aws_services.py: estimated EC2 prices per hour. -/
def EC2_PRICES : List (String × List (String × ℚ)) :=
  [("t3.micro",
    [("us-east-1", 0.0104), ("us-west-2", 0.0104),
     ("eu-west-1", 0.0114), ("sa-east-1", 0.0208)]),
   ("t3.small",
    [("us-east-1", 0.0208), ("us-west-2", 0.0208),
     ("eu-west-1", 0.0228), ("sa-east-1", 0.0416)]),
   ("t3.medium",
    [("us-east-1", 0.0416), ("us-west-2", 0.0416),
     ("eu-west-1", 0.0456), ("sa-east-1", 0.0832)]),
   ("m5.large",
    [("us-east-1", 0.096), ("us-west-2", 0.096),
     ("eu-west-1", 0.106), ("sa-east-1", 0.192)]),
   ("c5.large",
    [("us-east-1", 0.085), ("us-west-2", 0.085),
     ("eu-west-1", 0.094), ("sa-east-1", 0.17)])]

/-- `WINDOWS_MULTIPLIER` of src/aws_services.py: price multiplier for
Windows in the `estimate_ec2` cost model. -/
def WINDOWS_MULTIPLIER : ℚ := 1.3

/-- Embedding of `estimate_ec2`. -/
def estimate_ec2 (params : Params) : Quote :=
  let instance_type := params.instance_type.getD "t3.micro"
  let region := params.region.getD "us-east-1"
  let os_type := params.os_type.getD "Linux"
  let quantity := params.quantity.getD 1
  let hours_per_day := params.hours_per_day.getD 24
  let days_per_month := params.days_per_month.getD 30
  let base_price0 := dictGetD (dictGetD EC2_PRICES instance_type []) region 0.0416
  let base_price := if os_type = "Windows" then base_price0 * WINDOWS_MULTIPLIER else base_price0
  let monthly_hours := hours_per_day * days_per_month
  let total_cost := base_price * quantity * monthly_hours
  { unit_price := base_price,
    quantity := quantity,
    monthly_hours := some monthly_hours,
    total_price := total_cost }

/-- `S3_PRICES` of src/aws_services.py: estimated S3 prices per GB-month. -/
def S3_PRICES : List (String × List (String × ℚ)) :=
  [("Standard",
    [("us-east-1", 0.023), ("us-west-2", 0.023),
     ("eu-west-1", 0.024), ("sa-east-1", 0.0405)]),
   ("Intelligent-Tiering",
    [("us-east-1", 0.025), ("us-west-2", 0.025),
     ("eu-west-1", 0.026), ("sa-east-1", 0.0435)]),
   ("Standard-IA",
    [("us-east-1", 0.0125), ("us-west-2", 0.0125),
     ("eu-west-1", 0.0131), ("sa-east-1", 0.0216)]),
   ("One Zone-IA",
    [("us-east-1", 0.01), ("us-west-2", 0.01),
     ("eu-west-1", 0.0104), ("sa-east-1", 0.0172)]),
   ("Glacier",
    [("us-east-1", 0.004), ("us-west-2", 0.004),
     ("eu-west-1", 0.0042), ("sa-east-1", 0.0069)]),
   ("Glacier Deep Archive",
    [("us-east-1", 0.00099), ("us-west-2", 0.00099),
     ("eu-west-1", 0.00104), ("sa-east-1", 0.00171)])]

/-- Embedding of `estimate_s3`. -/
def estimate_s3 (params : Params) : Quote :=
  let storage_gb := params.storage_gb.getD 100
  let storage_class := params.storage_class.getD "Standard"
  let region := params.region.getD "us-east-1"
  let base_price := dictGetD (dictGetD S3_PRICES storage_class []) region 0.023
  let total_cost := base_price * storage_gb
  { unit_price := base_price,
    quantity := storage_gb,
    monthly_hours := some 1,
    total_price := total_cost }

/-- `LAMBDA_PRICES` of src/aws_services.py. -/
def LAMBDA_PRICES : List (String × List (String × ℚ)) :=
  [("requests",
    [("us-east-1", 0.20), ("us-west-2", 0.20),
     ("eu-west-1", 0.20), ("sa-east-1", 0.20)]),
   ("duration",
    [("us-east-1", 0.0000166667), ("us-west-2", 0.0000166667),
     ("eu-west-1", 0.0000166667), ("sa-east-1", 0.0000166667)])]

/-- Embedding of `estimate_lambda`. -/
def estimate_lambda (params : Params) : Quote :=
  let requests_millions := params.requests.getD 1
  let memory_mb := params.memory.getD 128
  let avg_duration_ms := params.avg_duration.getD 100
  let region := params.region.getD "us-east-1"
  let gb_factor := memory_mb / 1024
  let seconds_per_invocation := avg_duration_ms / 1000
  let total_seconds := requests_millions * 1000000 * seconds_per_invocation
  let gb_seconds := total_seconds * gb_factor
  let request_price := dictGetD (dictGetD LAMBDA_PRICES "requests" []) region 0.20
  let duration_price := dictGetD (dictGetD LAMBDA_PRICES "duration" []) region 0.0000166667
  let request_cost := request_price * requests_millions
  let duration_cost := duration_price * gb_seconds
  let total_cost := request_cost + duration_cost
  { unit_price := duration_price,
    quantity := gb_seconds,
    requests_cost := some request_cost,
    total_price := total_cost }

/-- `FARGATE_PRICES` of src/aws_services.py. -/
def FARGATE_PRICES : List (String × List (String × ℚ)) :=
  [("vcpu",
    [("us-east-1", 0.04048), ("us-west-2", 0.04048),
     ("eu-west-1", 0.04452), ("sa-east-1", 0.04856)]),
   ("memory",
    [("us-east-1", 0.004445), ("us-west-2", 0.004445),
     ("eu-west-1", 0.004889), ("sa-east-1", 0.005334)])]

/-- Embedding of `estimate_fargate`. -/
def estimate_fargate (params : Params) : Quote :=
  let vcpu := params.vcpu.getD 1
  let memory_gb := params.memory_gb.getD 2
  let hours_per_month := params.hours_per_month.getD 730
  let region := params.region.getD "us-east-1"
  let vcpu_price := dictGetD (dictGetD FARGATE_PRICES "vcpu" []) region 0.04048
  let memory_price := dictGetD (dictGetD FARGATE_PRICES "memory" []) region 0.004445
  let vcpu_cost := vcpu_price * vcpu * hours_per_month
  let memory_cost := memory_price * memory_gb * hours_per_month
  let total_cost := vcpu_cost + memory_cost
  let unit_price := vcpu_price * vcpu + memory_price * memory_gb
  { unit_price := unit_price,
    quantity := hours_per_month,
    vcpu_cost := some vcpu_cost,
    memory_cost := some memory_cost,
    total_price := total_cost }

/-- Embedding of `estimate_cloudwatch`. -/
def estimate_cloudwatch (params : Params) : Quote :=
  let ingestion_gb := params.ingestion_gb.getD 10
  let storage_gb := params.storage_gb.getD 10
  let metrics := params.metrics.getD 10
  let alarms := params.alarms.getD 5
  let dashboards := params.dashboards.getD 1
  let ingestion_price : ℚ := 0.50
  let storage_price : ℚ := 0.03
  let metrics_price : ℚ := 0.30
  let alarm_price : ℚ := 0.10
  let dashboard_price : ℚ := 3.00
  let total_cost :=
    ingestion_gb * ingestion_price + storage_gb * storage_price +
    metrics * metrics_price + alarms * alarm_price + dashboards * dashboard_price
  { unit_price := 1.0,
    quantity := 1,
    total_price := total_cost }

/-- Embedding of `estimate_elasticache` (tables `node_prices` and
`region_multipliers` are local dict literals in the source). -/
def estimate_elasticache (params : Params) : Quote :=
  let node_type := params.node_type.getD "cache.t3.micro"
  let nodes := params.nodes.getD 1
  let hours := params.hours.getD 730
  let region := params.region.getD "us-east-1"
  let node_prices : List (String × ℚ) :=
    [("cache.t3.micro", 0.018), ("cache.t3.small", 0.036),
     ("cache.t3.medium", 0.074), ("cache.m5.large", 0.156),
     ("cache.r5.large", 0.216)]
  let region_multipliers : List (String × ℚ) :=
    [("us-east-1", 1.0), ("us-west-2", 1.0),
     ("eu-west-1", 1.1), ("sa-east-1", 1.25)]
  let base_price := dictGetD node_prices node_type 0.018
  let region_multiplier := dictGetD region_multipliers region 1.0
  let unit_price := base_price * region_multiplier
  let total_cost := unit_price * nodes * hours
  { unit_price := unit_price,
    quantity := nodes * hours,
    total_price := total_cost }

/-- Embedding of `estimate_ecr`. -/
def estimate_ecr (params : Params) : Quote :=
  let storage_gb := params.storage_gb.getD 10
  let data_transfer_gb := params.data_transfer_gb.getD 50
  let storage_price : ℚ := 0.10
  let data_transfer_price : ℚ := 0.09
  let storage_cost := storage_gb * storage_price
  let data_transfer_cost := data_transfer_gb * data_transfer_price
  let total_cost := storage_cost + data_transfer_cost
  { unit_price := storage_price,
    quantity := storage_gb,
    data_transfer_cost := some data_transfer_cost,
    total_price := total_cost }

/-- Embedding of `estimate_opensearch` (tables `instance_prices` and
`region_multipliers` are local dict literals in the source). -/
def estimate_opensearch (params : Params) : Quote :=
  let instance_type := params.instance_type.getD "t3.small.search"
  let instances := params.instances.getD 1
  let storage_gb := params.storage_gb.getD 10
  let hours := params.hours.getD 730
  let region := params.region.getD "us-east-1"
  let instance_prices : List (String × ℚ) :=
    [("t3.small.search", 0.036), ("t3.medium.search", 0.073),
     ("m5.large.search", 0.139), ("c5.large.search", 0.123)]
  let storage_price : ℚ := 0.135
  let region_multipliers : List (String × ℚ) :=
    [("us-east-1", 1.0), ("us-west-2", 1.0),
     ("eu-west-1", 1.1), ("sa-east-1", 1.25)]
  let base_price := dictGetD instance_prices instance_type 0.036
  let region_multiplier := dictGetD region_multipliers region 1.0
  let instance_unit_price := base_price * region_multiplier
  let instance_cost := instance_unit_price * instances * hours
  let storage_cost := storage_price * storage_gb
  let total_cost := instance_cost + storage_cost
  { unit_price := instance_unit_price,
    quantity := instances * hours,
    storage_cost := some storage_cost,
    total_price := total_cost }

/-- Embedding of `estimate_route53`. -/
def estimate_route53 (params : Params) : Quote :=
  let hosted_zones := params.hosted_zones.getD 1
  let queries_millions := params.queries_millions.getD 1
  let zone_price : ℚ := 0.50
  let query_price : ℚ := 0.40
  let zone_cost := hosted_zones * zone_price
  let query_cost := queries_millions * query_price
  let total_cost := zone_cost + query_cost
  { unit_price := zone_price,
    quantity := hosted_zones,
    query_cost := some query_cost,
    total_price := total_cost }

/-- Embedding of `estimate_price`, the Pricing Facade dispatcher of
src/aws_services.py: an if/elif chain on the service name, ending in the
structured error `{"error": "Service not supported"}`. -/
def estimate_price (service : String) (params : Params) : PriceResult :=
  if service = "EC2" then PriceResult.quote (estimate_ec2 params)
  else if service = "S3" then PriceResult.quote (estimate_s3 params)
  else if service = "Lambda" then PriceResult.quote (estimate_lambda params)
  else if service = "Fargate/ECS" then PriceResult.quote (estimate_fargate params)
  else if service = "CloudWatch" then PriceResult.quote (estimate_cloudwatch params)
  else if service = "ElastiCache" then PriceResult.quote (estimate_elasticache params)
  else if service = "ECR" then PriceResult.quote (estimate_ecr params)
  else if service = "OpenSearch" then PriceResult.quote (estimate_opensearch params)
  else if service = "Route 53" then PriceResult.quote (estimate_route53 params)
  else PriceResult.error "Service not supported"

/-!
## Static Price Catalog — src/static/aws_resources.py
-/

/-- `AWS_REGIONS` of src/static/aws_resources.py. -/
def AWS_REGIONS : List String :=
  ["us-east-1", "us-east-2", "us-west-1", "us-west-2", "af-south-1",
   "ap-east-1", "ap-south-1", "ap-northeast-1", "ap-northeast-2",
   "ap-northeast-3", "ap-southeast-1", "ap-southeast-2", "ca-central-1",
   "eu-central-1", "eu-west-1", "eu-west-2", "eu-west-3", "eu-south-1",
   "eu-north-1", "me-south-1", "sa-east-1"]

/-- `EC2_BASE_PRICES` of src/static/aws_resources.py: per-hour base
prices per instance type and region, each with a `default` entry for
unlisted regions. -/
def EC2_BASE_PRICES : List (String × List (String × ℚ)) :=
  [("t2.nano",
    [("us-east-1", 0.0058), ("us-east-2", 0.0052), ("us-west-1", 0.0069),
     ("us-west-2", 0.0059), ("eu-west-1", 0.0063), ("ap-northeast-1", 0.0074),
     ("default", 0.0065)]),
   ("t2.micro",
    [("us-east-1", 0.0116), ("us-east-2", 0.0104), ("us-west-1", 0.0139),
     ("us-west-2", 0.0117), ("eu-west-1", 0.0127), ("ap-northeast-1", 0.0146),
     ("default", 0.0130)]),
   ("t2.small",
    [("us-east-1", 0.023), ("us-east-2", 0.0207), ("us-west-1", 0.0275),
     ("us-west-2", 0.0233), ("eu-west-1", 0.0250), ("ap-northeast-1", 0.0292),
     ("default", 0.0260)]),
   ("t2.medium",
    [("us-east-1", 0.0464), ("us-east-2", 0.0418), ("us-west-1", 0.0555),
     ("us-west-2", 0.0468), ("eu-west-1", 0.0504), ("ap-northeast-1", 0.0584),
     ("default", 0.0520)]),
   ("t2.large",
    [("us-east-1", 0.0928), ("us-east-2", 0.0835), ("us-west-1", 0.1109),
     ("us-west-2", 0.0936), ("eu-west-1", 0.1008), ("ap-northeast-1", 0.1168),
     ("default", 0.1040)]),
   ("t2.xlarge",
    [("us-east-1", 0.1856), ("us-east-2", 0.1670), ("us-west-1", 0.2219),
     ("us-west-2", 0.1872), ("eu-west-1", 0.2016), ("ap-northeast-1", 0.2336),
     ("default", 0.2080)]),
   ("t2.2xlarge",
    [("us-east-1", 0.3712), ("us-east-2", 0.3341), ("us-west-1", 0.4438),
     ("us-west-2", 0.3744), ("eu-west-1", 0.4032), ("ap-northeast-1", 0.4672),
     ("default", 0.4160)]),
   ("t3.nano",
    [("us-east-1", 0.0052), ("us-east-2", 0.0047), ("us-west-1", 0.0062),
     ("us-west-2", 0.0052), ("eu-west-1", 0.0057), ("ap-northeast-1", 0.0066),
     ("default", 0.0059)]),
   ("t3.micro",
    [("us-east-1", 0.0104), ("us-east-2", 0.0094), ("us-west-1", 0.0125),
     ("us-west-2", 0.0104), ("eu-west-1", 0.0114), ("ap-northeast-1", 0.0132),
     ("default", 0.0117)]),
   ("t3.small",
    [("us-east-1", 0.0208), ("us-east-2", 0.0187), ("us-west-1", 0.0250),
     ("us-west-2", 0.0208), ("eu-west-1", 0.0227), ("ap-northeast-1", 0.0264),
     ("default", 0.0234)]),
   ("m5.large",
    [("us-east-1", 0.096), ("us-east-2", 0.086), ("us-west-1", 0.113),
     ("us-west-2", 0.096), ("eu-west-1", 0.105), ("ap-northeast-1", 0.121),
     ("default", 0.107)]),
   ("m5.xlarge",
    [("us-east-1", 0.192), ("us-east-2", 0.173), ("us-west-1", 0.226),
     ("us-west-2", 0.192), ("eu-west-1", 0.210), ("ap-northeast-1", 0.242),
     ("default", 0.215)]),
   ("m5.2xlarge",
    [("us-east-1", 0.384), ("us-east-2", 0.346), ("us-west-1", 0.452),
     ("us-west-2", 0.384), ("eu-west-1", 0.419), ("ap-northeast-1", 0.484),
     ("default", 0.430)]),
   ("c5.large",
    [("us-east-1", 0.085), ("us-east-2", 0.077), ("us-west-1", 0.101),
     ("us-west-2", 0.085), ("eu-west-1", 0.093), ("ap-northeast-1", 0.108),
     ("default", 0.095)]),
   ("c5.xlarge",
    [("us-east-1", 0.170), ("us-east-2", 0.154), ("us-west-1", 0.202),
     ("us-west-2", 0.170), ("eu-west-1", 0.186), ("ap-northeast-1", 0.216),
     ("default", 0.190)]),
   ("c5.2xlarge",
    [("us-east-1", 0.340), ("us-east-2", 0.308), ("us-west-1", 0.404),
     ("us-west-2", 0.340), ("eu-west-1", 0.372), ("ap-northeast-1", 0.432),
     ("default", 0.380)]),
   ("r5.large",
    [("us-east-1", 0.126), ("us-east-2", 0.113), ("us-west-1", 0.149),
     ("us-west-2", 0.126), ("eu-west-1", 0.139), ("ap-northeast-1", 0.160),
     ("default", 0.141)]),
   ("r5.xlarge",
    [("us-east-1", 0.252), ("us-east-2", 0.226), ("us-west-1", 0.298),
     ("us-west-2", 0.252), ("eu-west-1", 0.278), ("ap-northeast-1", 0.320),
     ("default", 0.282)]),
   ("r5.2xlarge",
    [("us-east-1", 0.504), ("us-east-2", 0.452), ("us-west-1", 0.596),
     ("us-west-2", 0.504), ("eu-west-1", 0.556), ("ap-northeast-1", 0.640),
     ("default", 0.564)])]

/-- `WINDOWS_PRICE_PREMIUM` of src/static/aws_resources.py: flat
additional hourly price for Windows in the static catalog. -/
def WINDOWS_PRICE_PREMIUM : ℚ := 0.058

/-- Specification record of one EC2 instance type, mirroring the entries
of `INSTANCE_SPECS` in src/static/aws_resources.py. -/
structure InstanceSpec where
  vcpus : ℚ
  memory_gb : ℚ
  storage_gb : ℚ
  network : String
  architecture : List String
  current_generation : Bool
deriving DecidableEq, Repr

/-- `INSTANCE_SPECS` of src/static/aws_resources.py. -/
def INSTANCE_SPECS : List (String × InstanceSpec) :=
  [("t2.nano", ⟨1, 0.5, 0, "Low to Moderate", ["x86_64"], true⟩),
   ("t2.micro", ⟨1, 1, 0, "Low to Moderate", ["x86_64"], true⟩),
   ("t2.small", ⟨1, 2, 0, "Low to Moderate", ["x86_64"], true⟩),
   ("t2.medium", ⟨2, 4, 0, "Low to Moderate", ["x86_64"], true⟩),
   ("t2.large", ⟨2, 8, 0, "Low to Moderate", ["x86_64"], true⟩),
   ("t2.xlarge", ⟨4, 16, 0, "Moderate", ["x86_64"], true⟩),
   ("t2.2xlarge", ⟨8, 32, 0, "Moderate", ["x86_64"], true⟩),
   ("t3.nano", ⟨2, 0.5, 0, "Up to 5 Gigabit", ["x86_64"], true⟩),
   ("t3.micro", ⟨2, 1, 0, "Up to 5 Gigabit", ["x86_64"], true⟩),
   ("t3.small", ⟨2, 2, 0, "Up to 5 Gigabit", ["x86_64"], true⟩),
   ("t3.medium", ⟨2, 4, 0, "Up to 5 Gigabit", ["x86_64"], true⟩),
   ("t3.large", ⟨2, 8, 0, "Up to 5 Gigabit", ["x86_64"], true⟩),
   ("t3.xlarge", ⟨4, 16, 0, "Up to 5 Gigabit", ["x86_64"], true⟩),
   ("t3.2xlarge", ⟨8, 32, 0, "Up to 5 Gigabit", ["x86_64"], true⟩),
   ("m5.large", ⟨2, 8, 0, "Up to 10 Gigabit", ["x86_64"], true⟩),
   ("m5.xlarge", ⟨4, 16, 0, "Up to 10 Gigabit", ["x86_64"], true⟩),
   ("m5.2xlarge", ⟨8, 32, 0, "Up to 10 Gigabit", ["x86_64"], true⟩),
   ("m5.4xlarge", ⟨16, 64, 0, "Up to 10 Gigabit", ["x86_64"], true⟩),
   ("c5.large", ⟨2, 4, 0, "Up to 10 Gigabit", ["x86_64"], true⟩),
   ("c5.xlarge", ⟨4, 8, 0, "Up to 10 Gigabit", ["x86_64"], true⟩),
   ("c5.2xlarge", ⟨8, 16, 0, "Up to 10 Gigabit", ["x86_64"], true⟩),
   ("c5.4xlarge", ⟨16, 32, 0, "Up to 10 Gigabit", ["x86_64"], true⟩),
   ("r5.large", ⟨2, 16, 0, "Up to 10 Gigabit", ["x86_64"], true⟩),
   ("r5.xlarge", ⟨4, 32, 0, "Up to 10 Gigabit", ["x86_64"], true⟩),
   ("r5.2xlarge", ⟨8, 64, 0, "Up to 10 Gigabit", ["x86_64"], true⟩),
   ("r5.4xlarge", ⟨16, 128, 0, "Up to 10 Gigabit", ["x86_64"], true⟩)]

/-- Embedding of `is_valid_region`. -/
def is_valid_region (region : String) : Bool :=
  AWS_REGIONS.contains region

/-- Embedding of `is_valid_instance_type`: membership in the keys of
`INSTANCE_SPECS`. -/
def is_valid_instance_type (instance_type : String) : Bool :=
  (dictGet INSTANCE_SPECS instance_type).isSome

/-- Embedding of `get_ec2_base_price`: raises `ValueError` for an
invalid instance type; otherwise looks the region up in the per-type
price map, falling back to that map's `default` entry and finally to
zero, and adds `WINDOWS_PRICE_PREMIUM` when the operating system is
Windows (case-insensitive). -/
def get_ec2_base_price (instance_type region operating_system : String) :
    Except String ℚ :=
  if is_valid_instance_type instance_type = false then
    Except.error ("Tipo de instância inválido: " ++ instance_type)
  else
    let instance_prices := dictGetD EC2_BASE_PRICES instance_type []
    let base_price :=
      (dictGet instance_prices region).getD
        ((dictGet instance_prices "default").getD 0)
    if strLower operating_system = "windows" then
      Except.ok (base_price + WINDOWS_PRICE_PREMIUM)
    else
      Except.ok base_price

/-!
## Pricing Service — src/services/pricing_service.py

`get_ec2_price` there is decorated with `@with_fallback`, which resolves
the offline counterpart by appending `_static` to the function's name
(that name, `get_ec2_price_static`, exists in the same module) and then
calls `fallback_to_static(online, static, args)`.  The online body
performs boto3 network I/O and is abstracted as a thunk parameter.
-/

/-- The price-record dict returned by `get_ec2_price` /
`get_ec2_price_static` in src/services/pricing_service.py.  The `source`
field is present only in the static record. -/
structure EC2PriceRecord where
  instance_type : String
  region : String
  operating_system : String
  price_per_hour : ℚ
  unit : String
  currency : String
  source : Option String := none
deriving DecidableEq, Repr

/-- Embedding of `get_ec2_price_static`: validates the instance type and
region (raising `ValueError` otherwise), reads the price from the static
catalog via `get_ec2_base_price`, and tags the record with
`source = "static_data"`. -/
def get_ec2_price_static (instance_type region operating_system : String) :
    Except String EC2PriceRecord :=
  if is_valid_instance_type instance_type = false then
    Except.error ("Tipo de instância inválido: " ++ instance_type)
  else if is_valid_region region = false then
    Except.error ("Região inválida: " ++ region)
  else
    match get_ec2_base_price instance_type region operating_system with
    | Except.error e => Except.error e
    | Except.ok price =>
      Except.ok
        { instance_type := instance_type,
          region := region,
          operating_system := operating_system,
          price_per_hour := price,
          unit := "Hrs",
          currency := "USD",
          source := some "static_data" }

/-- Embedding of the decorated `get_ec2_price` of
src/services/pricing_service.py: the `with_fallback` wrapper invoking
`fallback_to_static` with the live lookup (abstracted as the thunk
`api`, since its body is boto3 network I/O) and
`get_ec2_price_static` on the same arguments. -/
def pricing_get_ec2_price (netOk : Bool) (s : ConnState)
    (api : Unit → Except String EC2PriceRecord)
    (instance_type region operating_system : String) :
    FallbackRun EC2PriceRecord :=
  fallback_to_static netOk s api
    (fun _ => get_ec2_price_static instance_type region operating_system)

/-- All (instance type, region) pairs tabulated in the static catalog
`EC2_BASE_PRICES` (the `default` fallback entries are not regions and
are excluded). -/
def catalogKeys : List (String × String) :=
  EC2_BASE_PRICES.flatMap
    (fun tp => (tp.2.filter (fun rp => rp.1 ≠ "default")).map
      (fun rp => (tp.1, rp.1)))

/-- The price tabulated in the static catalog for an (instance type,
region) pair present in it. -/
def tabulatedPrice (t r : String) : ℚ :=
  dictGetD (dictGetD EC2_BASE_PRICES t []) r 0

/-!
## Price Estimator — src/static/price_estimator.py
-/

/-- `FAMILY_MULTIPLIERS` of src/static/price_estimator.py. -/
def FAMILY_MULTIPLIERS : List (String × ℚ) :=
  [("t2", 1.0), ("t3", 0.9), ("t3a", 0.8), ("t4g", 0.7),
   ("m5", 2.2), ("m5a", 2.0), ("m5n", 2.4), ("m6g", 2.0), ("m6i", 2.2),
   ("c5", 2.0), ("c5a", 1.8), ("c5n", 2.2), ("c6g", 1.8), ("c6i", 2.0),
   ("r5", 2.8), ("r5a", 2.6), ("r5n", 3.0), ("r6g", 2.5), ("r6i", 2.8),
   ("x1", 12.0), ("x1e", 16.0), ("x2gd", 14.0),
   ("d2", 3.5), ("d3", 3.2), ("h1", 3.8), ("i3", 4.0), ("i3en", 4.5),
   ("p3", 15.0), ("p4d", 30.0), ("g4dn", 12.0), ("g5", 18.0)]

/-- `SIZE_MULTIPLIERS` of src/static/price_estimator.py. -/
def SIZE_MULTIPLIERS : List (String × ℚ) :=
  [("nano", 0.25), ("micro", 0.5), ("small", 1.0), ("medium", 2.0),
   ("large", 4.0), ("xlarge", 8.0), ("2xlarge", 16.0), ("3xlarge", 24.0),
   ("4xlarge", 32.0), ("6xlarge", 48.0), ("8xlarge", 64.0),
   ("9xlarge", 72.0), ("10xlarge", 80.0), ("12xlarge", 96.0),
   ("16xlarge", 128.0), ("18xlarge", 144.0), ("24xlarge", 192.0),
   ("32xlarge", 256.0), ("48xlarge", 384.0), ("metal", 128.0)]

/-- `REGION_MULTIPLIERS` of src/static/price_estimator.py. -/
def REGION_MULTIPLIERS : List (String × ℚ) :=
  [("us-east-1", 1.0), ("us-east-2", 1.0), ("us-west-1", 1.08),
   ("us-west-2", 1.02), ("ca-central-1", 1.07), ("eu-north-1", 1.05),
   ("eu-west-1", 1.02), ("eu-west-2", 1.10), ("eu-west-3", 1.10),
   ("eu-central-1", 1.15), ("eu-south-1", 1.12), ("ap-northeast-1", 1.20),
   ("ap-northeast-2", 1.20), ("ap-northeast-3", 1.20),
   ("ap-southeast-1", 1.18), ("ap-southeast-2", 1.22), ("ap-east-1", 1.25),
   ("ap-south-1", 1.15), ("sa-east-1", 1.30), ("me-south-1", 1.25),
   ("af-south-1", 1.25)]

/-- `OS_MULTIPLIERS` of src/static/price_estimator.py. -/
def OS_MULTIPLIERS : List (String × ℚ) :=
  [("Linux", 1.0), ("RHEL", 1.3), ("SUSE", 1.25), ("Windows", 2.0),
   ("Linux with SQL Web", 1.8), ("Linux with SQL Std", 4.5),
   ("Linux with SQL Ent", 12.0), ("Windows with SQL Web", 2.8),
   ("Windows with SQL Std", 5.5), ("Windows with SQL Ent", 14.0)]

/-- Lower-case ASCII letter predicate, the character class [a-z] of the
regex in `parse_instance_type`. -/
def isAtoZ (c : Char) : Bool :=
  'a' ≤ c && c ≤ 'z'

/-- Embedding of `parse_instance_type`: the prefix match of the regex
([a-z]+[0-9][a-z]*)\.([a-z0-9]+) against the instance-type string,
raising `ValueError` when it does not match.  Because the character
classes [a-z], [0-9] and the literal dot are pairwise disjoint, the
greedy prefix match is computed deterministically with `takeWhile`. -/
def parse_instance_type (instance_type : String) : Except String (String × String) :=
  let err := Except.error ("Formato de tipo de instância inválido: " ++ instance_type)
  let cs := instance_type.data
  let fam1 := cs.takeWhile isAtoZ
  if fam1.isEmpty then err
  else
    match cs.drop fam1.length with
    | [] => err
    | d :: rest2 =>
      if d.isDigit then
        let fam2 := rest2.takeWhile isAtoZ
        match rest2.drop fam2.length with
        | '.' :: rest4 =>
          let size := rest4.takeWhile (fun c => isAtoZ c || c.isDigit)
          if size.isEmpty then err
          else Except.ok (⟨fam1 ++ d :: fam2⟩, ⟨size⟩)
        | _ => err
      else err

/-- The target of the statement `from .aws_resources import BASE_PRICES`
in `estimate_ec2_price`: src/static/aws_resources.py defines
`EC2_BASE_PRICES` (and other names) but no top-level name `BASE_PRICES`,
so the import finds nothing and raises `ImportError` at run time.  The
absent binding is embedded as `none`. -/
def aws_resources_BASE_PRICES : Option (List (String × ℚ)) := none

/-- Embedding of `estimate_ec2_price` of src/static/price_estimator.py:
parses the instance type, resolves the four multipliers (defaulting to
1.0 for unknown keys), and either scales the caller-supplied base price
by all four multipliers, or — when no base price is given — attempts
the importing of `BASE_PRICES` (failing, see `aws_resources_BASE_PRICES`)
before choosing between the known-base-price path and the t2.micro
reference price 0.0116. -/
def estimate_ec2_price (instance_type region os : String)
    (base_price : Option ℚ) : Except String ℚ :=
  match parse_instance_type instance_type with
  | Except.error e => Except.error e
  | Except.ok (family, size) =>
    let family_multiplier := dictGetD FAMILY_MULTIPLIERS family 1.0
    let size_multiplier := dictGetD SIZE_MULTIPLIERS size 1.0
    let region_multiplier := dictGetD REGION_MULTIPLIERS region 1.0
    let os_multiplier := dictGetD OS_MULTIPLIERS os 1.0
    match base_price with
    | none =>
      match aws_resources_BASE_PRICES with
      | none =>
        Except.error "ImportError: cannot import name BASE_PRICES from static.aws_resources"
      | some bps =>
        match dictGet bps instance_type with
        | some bp => Except.ok (bp * region_multiplier * os_multiplier)
        | none =>
          Except.ok (0.0116 * family_multiplier * size_multiplier *
            region_multiplier * os_multiplier)
    | some bp =>
      Except.ok (bp * family_multiplier * size_multiplier *
        region_multiplier * os_multiplier)

/-!
## Theorems
-/

/-- Lookup in the empty dict is always absent. -/
theorem dictGet_nil {α : Type} (k : String) :
    dictGet ([] : List (String × α)) k = none := rfl

/-- Helper for C1: a fallback run makes exactly one call overall pattern
is read off the dispatcher's three control-flow branches. -/
theorem fallback_run_eq {α : Type} (netOk : Bool) (s : ConnState)
    (online_func offline_func : Unit → Except String α) :
    fallback_to_static netOk s online_func offline_func =
      if (is_aws_online netOk s).1 then
        match online_func () with
        | Except.ok v => ⟨Except.ok v, (is_aws_online netOk s).2, 1, 0⟩
        | Except.error _ => ⟨offline_func (), (is_aws_online netOk s).2, 1, 1⟩
      else ⟨offline_func (), (is_aws_online netOk s).2, 0, 1⟩ := rfl

/-- C1: when the connectivity monitor reports offline, `fallback_to_static`
calls the offline function once and never attempts the online one; when it
reports online, the online function is attempted exactly once and on an
exception the offline function is called exactly once and its result
returned; each operation is invoked at most once per call. -/
theorem fallback_dispatcher_behavior {α : Type} (netOk : Bool) (s : ConnState)
    (online_func offline_func : Unit → Except String α) :
    ((is_aws_online netOk s).1 = false →
      (fallback_to_static netOk s online_func offline_func).result = offline_func () ∧
      (fallback_to_static netOk s online_func offline_func).onlineCalls = 0 ∧
      (fallback_to_static netOk s online_func offline_func).offlineCalls = 1) ∧
    ((is_aws_online netOk s).1 = true →
      (fallback_to_static netOk s online_func offline_func).onlineCalls = 1 ∧
      (∀ e, online_func () = Except.error e →
        (fallback_to_static netOk s online_func offline_func).result = offline_func () ∧
        (fallback_to_static netOk s online_func offline_func).offlineCalls = 1) ∧
      (∀ v, online_func () = Except.ok v →
        (fallback_to_static netOk s online_func offline_func).result = Except.ok v ∧
        (fallback_to_static netOk s online_func offline_func).offlineCalls = 0)) ∧
    (fallback_to_static netOk s online_func offline_func).onlineCalls ≤ 1 ∧
    (fallback_to_static netOk s online_func offline_func).offlineCalls ≤ 1 := by
  rw [fallback_run_eq]
  cases hon : (is_aws_online netOk s).1 <;> cases hof : online_func () <;>
    simp [hof]

/-- Witness for C1: with the monitor forced online and the live operation
always failing, the dispatcher calls live once, static once, and returns
the static result. -/
theorem fallback_dispatcher_behavior_witness :
    (fallback_to_static true (force_online_mode ⟨none, none⟩)
      (fun _ => Except.error "boom") (fun _ => Except.ok (42 : ℕ))).result =
        Except.ok 42 ∧
    (fallback_to_static true (force_online_mode ⟨none, none⟩)
      (fun _ => Except.error "boom") (fun _ => Except.ok (42 : ℕ))).onlineCalls = 1 ∧
    (fallback_to_static true (force_online_mode ⟨none, none⟩)
      (fun _ => Except.error "boom") (fun _ => Except.ok (42 : ℕ))).offlineCalls = 1 := by
  obtain ⟨-, h2, -⟩ := fallback_dispatcher_behavior true (force_online_mode ⟨none, none⟩)
    (fun _ => Except.error "boom") (fun _ => Except.ok (42 : ℕ))
  obtain ⟨h21, h22, -⟩ := h2 rfl
  obtain ⟨hr, hc⟩ := h22 "boom" rfl
  exact ⟨hr, h21, hc⟩

/-- Helper for C4: no operation other than `forceOn` and `reset` clears a
forced-offline override. -/
theorem forced_off_invariant (ops : List ConnOp) (s : ConnState)
    (hs : s.force_mode = some false)
    (hops : ∀ op ∈ ops, op ≠ ConnOp.forceOn ∧ op ≠ ConnOp.reset) :
    (ops.foldl applyConnOp s).force_mode = some false := by
  induction ops generalizing s with
  | nil => exact hs
  | cons op rest ih =>
    have hop := hops op (List.mem_cons_self op rest)
    have hrest : ∀ o ∈ rest, o ≠ ConnOp.forceOn ∧ o ≠ ConnOp.reset :=
      fun o ho => hops o (List.mem_cons_of_mem op ho)
    refine ih (applyConnOp s op) ?_ hrest
    cases op with
    | probe netOk => simp [applyConnOp, check_aws_connection, hs]
    | query netOk => simp [applyConnOp, is_aws_online, hs]
    | forceOn => exact absurd rfl hop.1
    | forceOff => rfl
    | reset => exact absurd rfl hop.2

/-- C4: after `force_offline_mode`, every `is_aws_online` call returns
false regardless of real network state and of any intervening probe,
query or repeated force-offline calls, as long as neither
`force_online_mode` nor `reset_connection_state` has run. -/
theorem force_offline_persists (ops : List ConnOp) (s₀ : ConnState) (netOk : Bool)
    (hops : ∀ op ∈ ops, op ≠ ConnOp.forceOn ∧ op ≠ ConnOp.reset) :
    (is_aws_online netOk (ops.foldl applyConnOp (force_offline_mode s₀))).1 = false := by
  have h := forced_off_invariant ops (force_offline_mode s₀) rfl hops
  simp [is_aws_online, h]

/-- Witness for C4: after forcing offline, a probe with the network up, a
query with the network up and a second force-offline still leave
`is_aws_online` false. -/
theorem force_offline_persists_witness :
    (is_aws_online true
      ([ConnOp.probe true, ConnOp.query true, ConnOp.forceOff].foldl applyConnOp
        (force_offline_mode ⟨none, none⟩))).1 = false :=
  force_offline_persists _ _ _ (by decide)

/-- C7: `estimate_price` returns the structured error dict
`{"error": "Service not supported"}` for every service name outside the
nine registered cost models, and never raises (the embedding is a total
function). -/
theorem estimate_price_unknown_service (service : String) (params : Params)
    (h : service ∉ ["EC2", "S3", "Lambda", "Fargate/ECS", "CloudWatch",
      "ElastiCache", "ECR", "OpenSearch", "Route 53"]) :
    estimate_price service params = PriceResult.error "Service not supported" := by
  simp only [List.mem_cons, List.not_mem_nil, or_false, not_or] at h
  obtain ⟨h1, h2, h3, h4, h5, h6, h7, h8, h9⟩ := h
  simp [estimate_price, h1, h2, h3, h4, h5, h6, h7, h8, h9]

/-- Witness for C7 at the unregistered service name "DynamoDB". -/
theorem estimate_price_unknown_service_witness :
    estimate_price "DynamoDB" {} = PriceResult.error "Service not supported" :=
  estimate_price_unknown_service "DynamoDB" {} (by decide)

/-- Counterexample to C2 as stated: the EC2 quote for the empty parameter
dict declares no sub-costs, yet its total price is
unit_price × quantity × monthly_hours (7.488), not unit_price × quantity
(0.0104). -/
theorem quote_invariant_counterexample :
    estimate_price "EC2" {} = PriceResult.quote (estimate_ec2 {}) ∧
    (estimate_ec2 {}).subCosts = [] ∧
    (estimate_ec2 {}).total_price ≠
      (estimate_ec2 {}).unit_price * (estimate_ec2 {}).quantity := by
  refine ⟨rfl, rfl, ?_⟩
  simp [estimate_ec2, dictGetD, dictGet, EC2_PRICES, WINDOWS_MULTIPLIER]
  norm_num

/-- C2 (amended): the relation between `total_price`, `unit_price`,
`quantity` and the declared sub-costs of each cost model reachable
through `estimate_price`.  Only S3, Fargate and ElastiCache satisfy
total = unit × quantity (Fargate's total also equals the sum of its
declared sub-costs); EC2's total carries the extra `monthly_hours`
factor; Lambda, ECR, OpenSearch and Route 53 add their single declared
sub-cost on top of unit × quantity; CloudWatch's unit price and quantity
are placeholders (1.0 and 1) with an aggregate total. -/
theorem quote_total_price_forms (p : Params) :
    ((estimate_ec2 p).total_price =
        (estimate_ec2 p).unit_price * (estimate_ec2 p).quantity *
          ((estimate_ec2 p).monthly_hours.getD 0) ∧
      (estimate_ec2 p).subCosts = []) ∧
    ((estimate_s3 p).total_price =
        (estimate_s3 p).unit_price * (estimate_s3 p).quantity ∧
      (estimate_s3 p).subCosts = []) ∧
    ((estimate_lambda p).total_price =
      (estimate_lambda p).unit_price * (estimate_lambda p).quantity +
        (estimate_lambda p).requests_cost.getD 0) ∧
    ((estimate_fargate p).total_price = (estimate_fargate p).subCosts.sum ∧
      (estimate_fargate p).total_price =
        (estimate_fargate p).unit_price * (estimate_fargate p).quantity) ∧
    ((estimate_cloudwatch p).unit_price = 1 ∧
      (estimate_cloudwatch p).quantity = 1 ∧
      (estimate_cloudwatch p).subCosts = [] ∧
      (estimate_cloudwatch p).total_price =
        (p.ingestion_gb.getD 10) * 0.50 + (p.storage_gb.getD 10) * 0.03 +
          (p.metrics.getD 10) * 0.30 + (p.alarms.getD 5) * 0.10 +
          (p.dashboards.getD 1) * 3.00) ∧
    ((estimate_elasticache p).total_price =
        (estimate_elasticache p).unit_price * (estimate_elasticache p).quantity ∧
      (estimate_elasticache p).subCosts = []) ∧
    ((estimate_ecr p).total_price =
      (estimate_ecr p).unit_price * (estimate_ecr p).quantity +
        (estimate_ecr p).data_transfer_cost.getD 0) ∧
    ((estimate_opensearch p).total_price =
      (estimate_opensearch p).unit_price * (estimate_opensearch p).quantity +
        (estimate_opensearch p).storage_cost.getD 0) ∧
    ((estimate_route53 p).total_price =
      (estimate_route53 p).unit_price * (estimate_route53 p).quantity +
        (estimate_route53 p).query_cost.getD 0) := by
  refine ⟨⟨?_, rfl⟩, ⟨?_, rfl⟩, ?_, ⟨?_, ?_⟩, ⟨?_, ?_, rfl, ?_⟩, ⟨?_, rfl⟩, ?_, ?_, ?_⟩ <;>
    simp only [estimate_ec2, estimate_s3, estimate_lambda, estimate_fargate,
      estimate_cloudwatch, estimate_elasticache, estimate_ecr,
      estimate_opensearch, estimate_route53, Quote.subCosts,
      List.filterMap, Option.getD_some, List.sum_cons, List.sum_nil, id] <;>
    ring

/-- The parameter dict of the spec's Windows-premium test case. -/
def c3_params : Params :=
  { instance_type := some "t3.micro", region := some "us-east-1",
    os_type := some "Windows", quantity := some 1,
    hours_per_day := some 24, days_per_month := some 30 }

/-- C3: `estimate_price("EC2", ...)` on the t3.micro / us-east-1 /
Windows configuration dispatches to `estimate_ec2` and yields unit price
0.0104 × 1.3 = 0.01352, monthly hours 720 and total price 9.7344, each
within 1e-6 (the rational embedding computes them exactly). -/
theorem windows_premium_example :
    estimate_price "EC2" c3_params = PriceResult.quote (estimate_ec2 c3_params) ∧
    |(estimate_ec2 c3_params).unit_price - 0.01352| < 1 / 1000000 ∧
    (estimate_ec2 c3_params).unit_price = 0.0104 * 1.3 ∧
    (estimate_ec2 c3_params).monthly_hours = some 720 ∧
    |(estimate_ec2 c3_params).total_price - 9.7344| < 1 / 1000000 := by
  refine ⟨rfl, ?_, ?_, ?_, ?_⟩ <;>
    simp [estimate_ec2, c3_params, dictGetD, dictGet, EC2_PRICES,
      WINDOWS_MULTIPLIER] <;>
    norm_num

/-- C5: whenever the requested instance type is not a key of
`EC2_PRICES`, `estimate_ec2` still returns a quote (the embedding is a
total function), computed from the default unit price 0.0416 before the
OS adjustment — never zero and never an error. -/
theorem estimate_ec2_unknown_type_default (p : Params)
    (h : dictGet EC2_PRICES (p.instance_type.getD "t3.micro") = none) :
    (estimate_ec2 p).unit_price =
      (if p.os_type.getD "Linux" = "Windows" then 0.0416 * WINDOWS_MULTIPLIER
       else 0.0416) ∧
    (estimate_ec2 p).unit_price ≠ 0 ∧
    (estimate_ec2 p).total_price =
      (estimate_ec2 p).unit_price * (p.quantity.getD 1) *
        ((p.hours_per_day.getD 24) * (p.days_per_month.getD 30)) := by
  have hu : (estimate_ec2 p).unit_price =
      (if p.os_type.getD "Linux" = "Windows" then 0.0416 * WINDOWS_MULTIPLIER
       else 0.0416) := by
    simp only [estimate_ec2, dictGetD, h, dictGet_nil, Option.getD_none]
  refine ⟨hu, ?_, ?_⟩
  · rw [hu]
    by_cases hw : p.os_type.getD "Linux" = "Windows"
    · rw [if_pos hw]
      norm_num [WINDOWS_MULTIPLIER]
    · rw [if_neg hw]
      norm_num
  · simp only [estimate_ec2]

/-- Witness for C5: the unknown instance type "z9.huge" prices at the
default 0.0416 per hour instead of raising. -/
theorem estimate_ec2_unknown_type_default_witness :
    (estimate_ec2 { instance_type := some "z9.huge" }).unit_price = 0.0416 ∧
    (estimate_ec2 { instance_type := some "z9.huge" }).unit_price ≠ 0 := by
  obtain ⟨h1, h2, -⟩ :=
    estimate_ec2_unknown_type_default { instance_type := some "z9.huge" } rfl
  refine ⟨?_, h2⟩
  simpa using h1

/-- C6: for every valid instance type and any region string,
`get_ec2_base_price` (Linux case) returns the region-specific catalog
price when the region key is present in that type's price map, otherwise
the map's `default` entry, and zero when the type has no price map at
all (or the map lacks both keys). -/
theorem get_ec2_base_price_fallback_chain (t r : String)
    (hv : is_valid_instance_type t = true) :
    (∀ m q, dictGet EC2_BASE_PRICES t = some m → dictGet m r = some q →
      get_ec2_base_price t r "Linux" = Except.ok q) ∧
    (∀ m d, dictGet EC2_BASE_PRICES t = some m → dictGet m r = none →
      dictGet m "default" = some d →
      get_ec2_base_price t r "Linux" = Except.ok d) ∧
    (dictGet EC2_BASE_PRICES t = none →
      get_ec2_base_price t r "Linux" = Except.ok 0) ∧
    (∀ m, dictGet EC2_BASE_PRICES t = some m → dictGet m r = none →
      dictGet m "default" = none →
      get_ec2_base_price t r "Linux" = Except.ok 0) := by
  refine ⟨?_, ?_, ?_, ?_⟩
  · intro m q hm hr
    simp [get_ec2_base_price, hv, dictGetD, hm, hr, strLower]
  · intro m d hm hr hd
    simp [get_ec2_base_price, hv, dictGetD, hm, hr, hd, strLower]
  · intro hm
    simp [get_ec2_base_price, hv, dictGetD, hm, dictGet_nil, strLower]
  · intro m hm hr hd
    simp [get_ec2_base_price, hv, dictGetD, hm, hr, hd, strLower]

/-- Witness for C6: region present (t3.micro / us-east-1 → 0.0104),
region absent with default (t3.micro / sa-east-1 → 0.0117), and a valid
type with no price map (t3.medium → 0). -/
theorem get_ec2_base_price_fallback_chain_witness :
    get_ec2_base_price "t3.micro" "us-east-1" "Linux" = Except.ok 0.0104 ∧
    get_ec2_base_price "t3.micro" "sa-east-1" "Linux" = Except.ok 0.0117 ∧
    get_ec2_base_price "t3.medium" "us-east-1" "Linux" = Except.ok 0 := by
  refine ⟨?_, ?_, ?_⟩
  · exact (get_ec2_base_price_fallback_chain "t3.micro" "us-east-1" rfl).1 _ _ rfl rfl
  · exact (get_ec2_base_price_fallback_chain "t3.micro" "sa-east-1" rfl).2.1 _ _ rfl rfl rfl
  · exact (get_ec2_base_price_fallback_chain "t3.medium" "us-east-1" rfl).2.2.1 rfl

/-- C9: the static catalog applies the Windows premium additively
(`get_ec2_base_price` with "Windows" equals the Linux price plus the
flat 0.058 premium, for every valid instance type and any region),
while the `estimate_ec2` cost model applies the distinct multiplicative
1.3× form to its unit price; both mechanisms are present in the code. -/
theorem windows_premium_two_mechanisms :
    (∀ t r, is_valid_instance_type t = true →
      get_ec2_base_price t r "Windows" =
        Except.map (fun q => q + WINDOWS_PRICE_PREMIUM)
          (get_ec2_base_price t r "Linux")) ∧
    WINDOWS_PRICE_PREMIUM = 0.058 ∧
    WINDOWS_MULTIPLIER = 1.3 ∧
    (∀ p : Params,
      (estimate_ec2 { p with os_type := some "Windows" }).unit_price =
        WINDOWS_MULTIPLIER *
          (estimate_ec2 { p with os_type := some "Linux" }).unit_price) := by
  refine ⟨?_, rfl, rfl, ?_⟩
  · intro t r hv
    simp [get_ec2_base_price, hv, strLower, Except.map]
  · intro p
    simp only [estimate_ec2]
    simp only [Option.getD_some, if_pos, if_neg, String.reduceEq, if_true, if_false,
      reduceIte]
    ring

/-- Witness for C9 at t3.micro / us-east-1 and the empty parameter
dict. -/
theorem windows_premium_two_mechanisms_witness :
    get_ec2_base_price "t3.micro" "us-east-1" "Windows" =
      Except.map (fun q => q + WINDOWS_PRICE_PREMIUM)
        (get_ec2_base_price "t3.micro" "us-east-1" "Linux") ∧
    (estimate_ec2 { ({} : Params) with os_type := some "Windows" }).unit_price =
      WINDOWS_MULTIPLIER *
        (estimate_ec2 { ({} : Params) with os_type := some "Linux" }).unit_price :=
  ⟨windows_premium_two_mechanisms.1 "t3.micro" "us-east-1" rfl,
   windows_premium_two_mechanisms.2.2.2 {}⟩

/-- C8: with the connectivity monitor forced offline, the decorated
`get_ec2_price` of the pricing service resolves through
`get_ec2_price_static` without calling the live operation, and returns
the exact tabulated static-catalog price (tagged `source =
"static_data"`) for every (instance type, region) pair present in the
catalog, whatever the real network state and the live operation's
behaviour. -/
theorem forced_offline_static_resolution (t r : String) (netOk : Bool)
    (s₀ : ConnState) (api : Unit → Except String EC2PriceRecord)
    (h : (t, r) ∈ catalogKeys) :
    (pricing_get_ec2_price netOk (force_offline_mode s₀) api t r "Linux").result =
      Except.ok ⟨t, r, "Linux", tabulatedPrice t r, "Hrs", "USD",
        some "static_data"⟩ ∧
    (pricing_get_ec2_price netOk (force_offline_mode s₀) api t r "Linux").onlineCalls
      = 0 := by
  refine ⟨?_, rfl⟩
  show get_ec2_price_static t r "Linux" = _
  fin_cases h <;> rfl

/-- Witness for C8: forced offline, `get_ec2_price("t3.micro",
"us-east-1", "Linux")` returns price_per_hour 0.0104 from the static
data even though the live operation would fail. -/
theorem forced_offline_static_resolution_witness :
    (pricing_get_ec2_price true (force_offline_mode ⟨none, none⟩)
        (fun _ => Except.error "api down") "t3.micro" "us-east-1" "Linux").result =
      Except.ok ⟨"t3.micro", "us-east-1", "Linux", 0.0104, "Hrs", "USD",
        some "static_data"⟩ ∧
    (pricing_get_ec2_price true (force_offline_mode ⟨none, none⟩)
        (fun _ => Except.error "api down") "t3.micro" "us-east-1" "Linux").onlineCalls
      = 0 :=
  forced_offline_static_resolution "t3.micro" "us-east-1" true ⟨none, none⟩
    (fun _ => Except.error "api down") (by decide)

/-- C10: `estimate_ec2_price` of src/static/price_estimator.py never
returns a price when `base_price` is omitted — the no-base-price path
reaches the import of the nonexistent name `BASE_PRICES` (see
`aws_resources_BASE_PRICES`) when the instance type parses, and raises a
parse error otherwise — while an explicit `base_price` does produce a
numeric result (t2.micro / us-east-1 / Linux with base 0.0116 yields
0.0116 × 1.0 × 0.5 × 1.0 × 1.0 = 0.0058). -/
theorem estimate_ec2_price_requires_base_price :
    (∀ t r o, (estimate_ec2_price t r o none).toOption = none) ∧
    estimate_ec2_price "t2.micro" "us-east-1" "Linux" (some 0.0116) =
      Except.ok 0.0058 := by
  constructor
  · intro t r o
    cases hp : parse_instance_type t with
    | error e => simp [estimate_ec2_price, hp, Except.toOption]
    | ok fs => simp [estimate_ec2_price, hp, aws_resources_BASE_PRICES, Except.toOption]
  · have hp : parse_instance_type "t2.micro" = Except.ok ("t2", "micro") := rfl
    simp only [estimate_ec2_price, hp]
    simp [dictGetD, dictGet, FAMILY_MULTIPLIERS, SIZE_MULTIPLIERS,
      REGION_MULTIPLIERS, OS_MULTIPLIERS, List.find?]
    norm_num
